import Mathlib

/-!
Verification of the response-encoding layer of a JSON-RPC 2.0 server
(`src/res.rs` of the `warp-json-rpc` crate): the `Response` envelope, the
`Builder`, the `Error` taxonomy, and their serialization behaviour under
`serde_json`.

JSON values are modelled by an inductive `Json` tree.  The `serde`
serialization of each Rust structure is embedded as a function producing
such a tree — an object is an ordered association list of key/value pairs,
listed exactly in the order `serde` emits them — and `Json.render`
produces the compact textual output that `serde_json::to_vec` writes.
A boxed `dyn erased_serde::Serialize` value is modelled by the outcome of
serializing it: either a `Json` tree or a serialization error message.
-/

namespace WarpJsonRpc

/-- A JSON value.  Objects are ordered association lists, in the order
`serde_json` emits the keys. -/
inductive Json where
  | null : Json
  | bool (b : Bool) : Json
  | num (n : Int) : Json
  | str (s : String) : Json
  | arr (elems : List Json) : Json
  | obj (fields : List (String × Json)) : Json

/-- Look a key up in the field list of a JSON object (first match wins). -/
def lookupField : List (String × Json) → String → Option Json
  | [], _ => none
  | (k, v) :: rest, key => if k = key then some v else lookupField rest key

/-- The value at a top-level key of a JSON object; `none` when the key is
absent or the value is not an object.  This is the key lookup a client
performs after parsing the serialized output back into a generic JSON
object. -/
def Json.getKey? : Json → String → Option Json
  | .obj fields, key => lookupField fields key
  | _, _ => none

/-- Whether a parsed JSON object has a given top-level key. -/
def Json.hasKey (j : Json) (key : String) : Bool :=
  (j.getKey? key).isSome

/-- One lowercase hexadecimal digit, as `serde_json` prints in `\u00XX`
escapes. -/
def hexDigit (n : Nat) : String :=
  String.singleton (Char.ofNat (if n < 10 then 48 + n else 87 + n))

/-- How `serde_json` escapes a single character inside a JSON string:
quote and backslash get a backslash escape, control characters use the
short escapes `\b`, `\t`, `\n`, `\f`, `\r` or a `\u00XX` escape, and every
other character is emitted verbatim. -/
def escapeChar (c : Char) : String :=
  if c = '"' then "\\\""
  else if c = '\\' then "\\\\"
  else if c.toNat = 8 then "\\b"
  else if c.toNat = 9 then "\\t"
  else if c.toNat = 10 then "\\n"
  else if c.toNat = 12 then "\\f"
  else if c.toNat = 13 then "\\r"
  else if c.toNat < 32 then "\\u00" ++ hexDigit (c.toNat / 16) ++ hexDigit (c.toNat % 16)
  else String.singleton c

/-- A JSON string literal as `serde_json` prints it. -/
def renderStr (s : String) : String :=
  "\"" ++ String.join (s.toList.map escapeChar) ++ "\""

mutual

/-- The compact textual form `serde_json::to_vec` produces for a JSON
value (no whitespace, keys in list order). -/
def Json.render : Json → String
  | .null => "null"
  | .bool b => cond b "true" "false"
  | .num n => toString n
  | .str s => renderStr s
  | .arr elems => "[" ++ renderArr elems ++ "]"
  | .obj fields => "\x7b" ++ renderObj fields ++ "\x7d"

/-- Comma-separated rendering of array elements. -/
def renderArr : List Json → String
  | [] => ""
  | [x] => Json.render x
  | x :: rest => Json.render x ++ "," ++ renderArr rest

/-- Comma-separated rendering of object fields as `"key":value`. -/
def renderObj : List (String × Json) → String
  | [] => ""
  | [(k, v)] => renderStr k ++ ":" ++ Json.render v
  | (k, v) :: rest => renderStr k ++ ":" ++ Json.render v ++ "," ++ renderObj rest

end

example : Json.render (.obj [("a", .num 1), ("b", .str "x")]) = "\x7b\"a\":1,\"b\":\"x\"\x7d" := by
  rfl

/-- A boxed `dyn erased_serde::Serialize` value (the type of success
payloads and of an error's `data` in `src/res.rs`), modelled by what
happens when `serde_json` drives it: it either yields a JSON tree or
fails with a serialization error message. -/
structure Serializable where
  serialize : Except String Json

/-- A value that serializes successfully to the given JSON tree. -/
def Serializable.ofJson (j : Json) : Serializable :=
  ⟨Except.ok j⟩

/-- Modelled from the spec: the protocol version tag `Version` lives in
`src/req.rs`, which is not among the provided sources (`src/res.rs` only
uses `Version::V2`).  The spec fixes it as "a fixed enumerated constant
representing JSON-RPC version \"2.0\"; always serialized identically; not
user-settable". -/
inductive Version where
  | V2 : Version

/-- Modelled from the spec: `Version::V2` serializes as the literal string
"2.0". -/
def Version.toJson : Version → Json
  | .V2 => .str "2.0"

/-- The `Error` struct of `src/res.rs`: `code: i64`,
`message: Cow<'static, str>`, `data: Option<Box<dyn erased_serde::Serialize>>`. -/
structure Error where
  code : Int
  message : String
  data : Option Serializable

/-- `Error::PARSE_ERROR` from `src/res.rs`. -/
def Error.PARSE_ERROR : Error :=
  ⟨-32700, "Parse error", none⟩

/-- `Error::INVALID_REQUEST` from `src/res.rs`. -/
def Error.INVALID_REQUEST : Error :=
  ⟨-32600, "Invalid Request", none⟩

/-- `Error::METHOD_NOT_FOUND` from `src/res.rs`. -/
def Error.METHOD_NOT_FOUND : Error :=
  ⟨-32601, "Method not found", none⟩

/-- `Error::INVALID_PARAMS` from `src/res.rs`. -/
def Error.INVALID_PARAMS : Error :=
  ⟨-32602, "Invalid params", none⟩

/-- `Error::INTERNAL_ERROR` from `src/res.rs`. -/
def Error.INTERNAL_ERROR : Error :=
  ⟨-32603, "Internal error", none⟩

/-- `Error::custom` from `src/res.rs`: builds `Error { code, message:
message.into(), data: data.map(|s| Box::new(s) as Box<dyn ...>) }`.
`message.into()` through `Cow<'static, str>: From<S>` preserves the string
content, and boxing preserves the value, so both are the identity here. -/
def Error.custom (code : Int) (message : String) (data : Option Serializable) : Error :=
  ⟨code, message, data⟩

/-- How the `Option` field `data` serializes under the derived `Serialize`
impl: the field carries no `skip_serializing_if` attribute in
`src/res.rs`, so `None` is serialized as JSON `null` (the key stays). -/
def serializeData : Option Serializable → Except String Json
  | none => Except.ok Json.null
  | some s => s.serialize

/-- The derived `Serialize` impl of `Error`: a JSON object with fields
`code`, `message`, `data` in declaration order; fails iff serializing the
embedded `data` value fails. -/
def Error.toJsonE (e : Error) : Except String Json := do
  let d ← serializeData e.data
  pure (Json.obj [("code", .num e.code), ("message", .str e.message), ("data", d)])

/-- The `ResponseContent` enum of `src/res.rs`: `Success(Box<dyn
erased_serde::Serialize>)` renamed to `result`, or `Error(Error)` renamed
to `error`. -/
inductive ResponseContent where
  | Success (payload : Serializable) : ResponseContent
  | Error (e : Error) : ResponseContent

/-- The derived `Serialize` impl of `ResponseContent` (externally tagged
enum, flattened into the envelope): exactly one field, `result` with the
serialized payload or `error` with the serialized error object. -/
def ResponseContent.fieldsE : ResponseContent → Except String (List (String × Json))
  | .Success p => do pure [("result", ← p.serialize)]
  | .Error e => do pure [("error", ← e.toJsonE)]

/-- The `Response` struct of `src/res.rs`: `jsonrpc: Version`,
`id: Option<u64>` with `skip_serializing_if = "Option::is_none"`, and
`content: ResponseContent` with `serde(flatten)`.  Ids are `u64` values;
they are only passed through, never computed with, so `Nat` carries them
faithfully. -/
structure Response where
  jsonrpc : Version
  id : Option Nat
  content : ResponseContent

/-- `Response::new` from `src/res.rs`: always stamps `Version::V2`. -/
def Response.new (id : Option Nat) (content : ResponseContent) : Response :=
  ⟨Version.V2, id, content⟩

/-- The fields the optional `id` contributes to the serialized object:
none at all when the id is absent (`skip_serializing_if = "Option::is_none"`). -/
def idFields : Option Nat → List (String × Json)
  | none => []
  | some i => [("id", Json.num i)]

/-- The derived `Serialize` impl of `Response` under `serde_json`:
`jsonrpc` first, then `id` (omitted when `None`), then the flattened
content field.  Fails iff the embedded payload or error data fails to
serialize. -/
def Response.serializeE (r : Response) : Except String Json := do
  let contentFields ← r.content.fieldsE
  pure (Json.obj ([("jsonrpc", r.jsonrpc.toJson)] ++ idFields r.id ++ contentFields))

/-- `http::StatusCode::from_u16` accepts exactly the codes in `[100, 999]`;
`http::Response::Builder::status` records an error outside that range. -/
def isValidStatus (s : Nat) : Bool :=
  100 ≤ s && s ≤ 999

/-- A character the `http` crate accepts in a header name (RFC 7230 token
characters; `HeaderName::from_bytes` rejects anything else). -/
def isHeaderNameChar (c : Char) : Bool :=
  (97 ≤ c.toNat && c.toNat ≤ 122) || (65 ≤ c.toNat && c.toNat ≤ 90)
    || (48 ≤ c.toNat && c.toNat ≤ 57)
    || [33, 35, 36, 37, 38, 39, 42, 43, 45, 46, 94, 95, 96, 124, 126].contains c.toNat

/-- A character the `http` crate accepts in a header value
(`HeaderValue::try_from(&str)`: visible characters plus space and tab;
control characters and DEL are rejected). -/
def isHeaderValueChar (c : Char) : Bool :=
  c.toNat = 9 || (32 ≤ c.toNat && c.toNat ≠ 127)

/-- The finished `http::Response<Body>` value: status, headers and body
text. -/
structure HttpResponse where
  status : Nat
  headers : List (String × String)
  body : String

/-- `http::Response::builder().status(s).header(name, value).body(body)`:
returns `none` (an `Err` that `into_reply` unwraps) when the status code
or the header is invalid, otherwise the finished response. -/
def httpBuild (status : Nat) (hname hvalue : String) (body : String) : Option HttpResponse :=
  if isValidStatus status && hname.toList.all isHeaderNameChar && hname ≠ ""
      && hvalue.toList.all isHeaderValueChar then
    some ⟨status, [(hname, hvalue)], body⟩
  else
    none

/-- How a build operation can fail.  `serError` is the `Err` that the `?`
on `serde_json::to_vec` propagates through the `anyhow::Result`;
`panicked` models the `.unwrap()` on the HTTP builder aborting — a panic
is not a returned value in Rust, so it is kept as a distinct outcome here
to reason about its (un)reachability. -/
inductive BuildFailure where
  | serError (msg : String) : BuildFailure
  | panicked : BuildFailure

/-- `Response::into_reply` from `src/res.rs`: serialize the response with
`serde_json::to_vec` (propagating its error with `?`), then build the HTTP
response with status 200 and header `Content-Type: application/json`,
unwrapping the builder's result. -/
def Response.into_reply (r : Response) : Except BuildFailure HttpResponse :=
  match r.serializeE with
  | Except.error msg => Except.error (BuildFailure.serError msg)
  | Except.ok j =>
    match httpBuild 200 "Content-Type" "application/json" j.render with
    | some resp => Except.ok resp
    | none => Except.error BuildFailure.panicked

/-- The `Builder` struct of `src/res.rs`: holds only the correlation id. -/
structure Builder where
  id : Option Nat

/-- `Builder::new` from `src/res.rs`: stores the id verbatim. -/
def Builder.new (id : Option Nat) : Builder :=
  ⟨id⟩

/-- `Builder::success` from `src/res.rs`. -/
def Builder.success (b : Builder) (content : Serializable) : Except BuildFailure HttpResponse :=
  (Response.new b.id (ResponseContent.Success content)).into_reply

/-- `Builder::error` from `src/res.rs`. -/
def Builder.error (b : Builder) (e : Error) : Except BuildFailure HttpResponse :=
  (Response.new b.id (ResponseContent.Error e)).into_reply

/-- `Builder::result` from `src/res.rs`: match on the `Result`, dispatch
to `success` or `error`.  Rust's `Result<S, Error>` is `Except Error
Serializable` here (`Ok` is `Except.ok`). -/
def Builder.result (b : Builder) (r : Except Error Serializable) : Except BuildFailure HttpResponse :=
  match r with
  | Except.ok success => b.success success
  | Except.error error => b.error error

/-!
Theorems settling the claims.
-/

/-- C1 counterexample: the claim says an error built with `data = None`
serializes with no "data" key at all; but for the standard constant
`Error::INVALID_PARAMS` (whose data is `None`) the serialized error
object does contain the "data" key, bound to `null` — the `data` field of
`Error` carries no `skip_serializing_if` attribute in `src/res.rs`. -/
theorem invalid_params_serialization_has_data_key :
    Error.toJsonE Error.INVALID_PARAMS =
      Except.ok (Json.obj [("code", Json.num (-32602)),
        ("message", Json.str "Invalid params"), ("data", Json.null)]) ∧
    (Json.obj [("code", Json.num (-32602)), ("message", Json.str "Invalid params"),
      ("data", Json.null)]).hasKey "data" = true :=
  ⟨rfl, rfl⟩

/-- C1 (amended): for every error whose diagnostic data is absent
(`data = None`), including the five standard error constants, the
serialized error object contains the "data" key with value `null` — the
key is emitted as null, not omitted. -/
theorem data_none_serializes_as_null (e : Error) (h : e.data = none) :
    e.toJsonE = Except.ok (Json.obj [("code", Json.num e.code),
      ("message", Json.str e.message), ("data", Json.null)]) := by
  unfold Error.toJsonE
  rw [h]
  rfl

/-- Witness for C1 at the standard constant `Error::PARSE_ERROR`. -/
theorem data_none_serializes_as_null_witness :
    Error.PARSE_ERROR.data = none ∧
    Error.toJsonE Error.PARSE_ERROR =
      Except.ok (Json.obj [("code", Json.num (-32700)),
        ("message", Json.str "Parse error"), ("data", Json.null)]) :=
  ⟨rfl, data_none_serializes_as_null Error.PARSE_ERROR rfl⟩

/-- C2 counterexample: the claim says the body is exactly
`{"jsonrpc":"2.0","id":42,"error":{"code":-32602,"message":"Invalid params"}}`;
the body the code actually produces carries an extra `"data":null` inside
the error object, so it differs from the claimed body. -/
theorem builder_error_invalid_params_body_differs :
    (Builder.error (Builder.new (some 42)) Error.INVALID_PARAMS).map HttpResponse.body =
      Except.ok "\x7b\"jsonrpc\":\"2.0\",\"id\":42,\"error\":\x7b\"code\":-32602,\"message\":\"Invalid params\",\"data\":null\x7d\x7d" ∧
    ("\x7b\"jsonrpc\":\"2.0\",\"id\":42,\"error\":\x7b\"code\":-32602,\"message\":\"Invalid params\",\"data\":null\x7d\x7d" ≠
      "\x7b\"jsonrpc\":\"2.0\",\"id\":42,\"error\":\x7b\"code\":-32602,\"message\":\"Invalid params\"\x7d\x7d") :=
  ⟨rfl, by decide⟩

/-- C2 (amended): building an error response for id 42 from
`Error::INVALID_PARAMS` produces status 200, the content-type header, and
exactly the JSON body
`{"jsonrpc":"2.0","id":42,"error":{"code":-32602,"message":"Invalid params","data":null}}`. -/
theorem builder_error_invalid_params_body :
    Builder.error (Builder.new (some 42)) Error.INVALID_PARAMS =
      Except.ok ⟨200, [("Content-Type", "application/json")],
        "\x7b\"jsonrpc\":\"2.0\",\"id\":42,\"error\":\x7b\"code\":-32602,\"message\":\"Invalid params\",\"data\":null\x7d\x7d"⟩ :=
  rfl

/-- Helper: what `serializeE` produces once the content's fields are
known. -/
theorem serializeE_of_fieldsE (id : Option Nat) (content : ResponseContent)
    (fields : List (String × Json)) (h : content.fieldsE = Except.ok fields) :
    (Response.new id content).serializeE =
      Except.ok (Json.obj ([("jsonrpc", Json.str "2.0")] ++ idFields id ++ fields)) := by
  unfold Response.serializeE
  rw [show (Response.new id content).content = content from rfl, h]
  rfl

/-- Helper: the fields of a success content, when the payload serializes. -/
theorem fieldsE_success (p : Serializable) (x : Json) (h : p.serialize = Except.ok x) :
    (ResponseContent.Success p).fieldsE = Except.ok [("result", x)] := by
  have hred : (ResponseContent.Success p).fieldsE =
      Except.bind p.serialize (fun y => pure [("result", y)]) := rfl
  rw [hred, h]
  rfl

/-- Helper: the fields of an error content, when the error serializes. -/
theorem fieldsE_error (e : Error) (x : Json) (h : e.toJsonE = Except.ok x) :
    (ResponseContent.Error e).fieldsE = Except.ok [("error", x)] := by
  have hred : (ResponseContent.Error e).fieldsE =
      Except.bind e.toJsonE (fun y => pure [("error", y)]) := rfl
  rw [hred, h]
  rfl

/-- Helper: a successful `serializeE` pins down the shape of the output
object: the `jsonrpc` field, then the optional `id` field, then exactly
one content field. -/
theorem serializeE_shape (id : Option Nat) (content : ResponseContent) (j : Json)
    (h : (Response.new id content).serializeE = Except.ok j) :
    ∃ key x, ((content = ResponseContent.Success ⟨Except.ok x⟩ ∧ key = "result") ∨
        (∃ e, content = ResponseContent.Error e ∧ key = "error")) ∧
      j = Json.obj ([("jsonrpc", Json.str "2.0")] ++ idFields id ++ [(key, x)]) := by
  cases content with
  | Success p =>
    cases hp : p.serialize with
    | error msg =>
      exfalso
      unfold Response.serializeE ResponseContent.fieldsE at h
      rw [show (Response.new id (ResponseContent.Success p)).content =
        ResponseContent.Success p from rfl] at h
      simp [hp] at h
    | ok x =>
      refine ⟨"result", x, Or.inl ⟨?_, rfl⟩, ?_⟩
      · cases p
        cases hp
        rfl
      · rw [serializeE_of_fieldsE id _ _ (fieldsE_success p x hp)] at h
        exact (Except.ok.injEq _ _).mp h.symm
  | Error e =>
    cases he : e.toJsonE with
    | error msg =>
      exfalso
      unfold Response.serializeE ResponseContent.fieldsE at h
      rw [show (Response.new id (ResponseContent.Error e)).content =
        ResponseContent.Error e from rfl] at h
      simp [he] at h
    | ok x =>
      refine ⟨"error", x, Or.inr ⟨e, rfl, rfl⟩, ?_⟩
      rw [serializeE_of_fieldsE id _ _ (fieldsE_error e x he)] at h
      exact (Except.ok.injEq _ _).mp h.symm

/-- C3: for every payload `p`, if the success envelope built with no
correlation id serializes to a JSON object `j`, then `j` has no "id" key
at all — absence is never encoded as null. -/
theorem no_id_key_when_id_absent (p : Serializable) (j : Json)
    (h : (Response.new none (ResponseContent.Success p)).serializeE = Except.ok j) :
    j.hasKey "id" = false := by
  obtain ⟨key, x, hkey, rfl⟩ := serializeE_shape none _ j h
  rcases hkey with ⟨_, rfl⟩ | ⟨e, _, rfl⟩ <;> rfl

/-- Witness for C3 at the payload `7`. -/
theorem no_id_key_when_id_absent_witness :
    (Response.new none (ResponseContent.Success (Serializable.ofJson (Json.num 7)))).serializeE =
      Except.ok (Json.obj [("jsonrpc", Json.str "2.0"), ("result", Json.num 7)]) ∧
    (Json.obj [("jsonrpc", Json.str "2.0"), ("result", Json.num 7)]).hasKey "id" = false :=
  ⟨rfl, no_id_key_when_id_absent (Serializable.ofJson (Json.num 7)) _ rfl⟩

/-- C4: every envelope that serializes successfully — any id, any content,
hence any construction path — carries exactly one of the top-level keys
"result" and "error": the one is present exactly when the other is
absent. -/
theorem result_error_mutually_exclusive (id : Option Nat) (content : ResponseContent) (j : Json)
    (h : (Response.new id content).serializeE = Except.ok j) :
    j.hasKey "result" = !j.hasKey "error" := by
  obtain ⟨key, x, hkey, rfl⟩ := serializeE_shape id content j h
  rcases hkey with ⟨_, rfl⟩ | ⟨e, _, rfl⟩ <;> cases id <;> rfl

/-- Witness for C4: an error envelope with id 3 carries "error" and not
"result". -/
theorem result_error_mutually_exclusive_witness :
    (Response.new (some 3) (ResponseContent.Error Error.INTERNAL_ERROR)).serializeE =
      Except.ok (Json.obj [("jsonrpc", Json.str "2.0"), ("id", Json.num 3),
        ("error", Json.obj [("code", Json.num (-32603)),
          ("message", Json.str "Internal error"), ("data", Json.null)])]) ∧
    (Json.obj [("jsonrpc", Json.str "2.0"), ("id", Json.num 3),
      ("error", Json.obj [("code", Json.num (-32603)),
        ("message", Json.str "Internal error"), ("data", Json.null)])]).hasKey "result" =
      !(Json.obj [("jsonrpc", Json.str "2.0"), ("id", Json.num 3),
        ("error", Json.obj [("code", Json.num (-32603)),
          ("message", Json.str "Internal error"), ("data", Json.null)])]).hasKey "error" :=
  ⟨rfl, result_error_mutually_exclusive (some 3) (ResponseContent.Error Error.INTERNAL_ERROR) _ rfl⟩

/-- C5: for every id `i` and payload `p`, the serialized success envelope,
read back as a JSON object, has `jsonrpc` equal to the string "2.0", `id`
equal to `i`, and `result` structurally equal to the JSON encoding of
`p`. -/
theorem success_roundtrip_fields (i : Nat) (p : Json) :
    ∃ j, (Response.new (some i) (ResponseContent.Success (Serializable.ofJson p))).serializeE =
        Except.ok j ∧
      j.getKey? "jsonrpc" = some (Json.str "2.0") ∧
      j.getKey? "id" = some (Json.num i) ∧
      j.getKey? "result" = some p :=
  ⟨Json.obj [("jsonrpc", Json.str "2.0"), ("id", Json.num i), ("result", p)],
    rfl, rfl, rfl, rfl⟩

/-- C6: `Builder::result` is exactly the branch over the `Result`
variant: on `Ok(p)` it returns what `success(p)` returns, on `Err(e)` it
returns what `error(e)` returns. -/
theorem result_dispatches_to_success_or_error (b : Builder) (p : Serializable) (e : Error) :
    b.result (Except.ok p) = b.success p ∧ b.result (Except.error e) = b.error e :=
  ⟨rfl, rfl⟩

/-- Helper: when serialization succeeds, `into_reply` returns the fixed
HTTP response around the rendered body — the builder's validity checks on
status 200 and the content-type header pass, so the `unwrap` cannot
fire. -/
theorem into_reply_of_serializeE (r : Response) (j : Json)
    (h : r.serializeE = Except.ok j) :
    r.into_reply = Except.ok ⟨200, [("Content-Type", "application/json")], j.render⟩ := by
  unfold Response.into_reply
  rw [h]
  rfl

/-- C7: every transport response a build operation actually returns —
for success and for JSON-RPC error envelopes alike — has HTTP status 200
and the single header `Content-Type: application/json`. -/
theorem into_reply_status_and_header (r : Response) (resp : HttpResponse)
    (h : r.into_reply = Except.ok resp) :
    resp.status = 200 ∧ resp.headers = [("Content-Type", "application/json")] := by
  revert h
  unfold Response.into_reply
  cases r.serializeE with
  | error msg => intro h; cases h
  | ok j =>
    intro h
    have : HttpResponse.mk 200 [("Content-Type", "application/json")] j.render = resp := by
      cases h
      rfl
    rw [← this]
    exact ⟨rfl, rfl⟩

/-- Witness for C7 at the error envelope of the C2 scenario. -/
theorem into_reply_status_and_header_witness :
    (Response.new (some 42) (ResponseContent.Error Error.INVALID_PARAMS)).into_reply =
      Except.ok ⟨200, [("Content-Type", "application/json")],
        "\x7b\"jsonrpc\":\"2.0\",\"id\":42,\"error\":\x7b\"code\":-32602,\"message\":\"Invalid params\",\"data\":null\x7d\x7d"⟩ ∧
    (HttpResponse.mk 200 [("Content-Type", "application/json")]
        "\x7b\"jsonrpc\":\"2.0\",\"id\":42,\"error\":\x7b\"code\":-32602,\"message\":\"Invalid params\",\"data\":null\x7d\x7d").status = 200 ∧
    (HttpResponse.mk 200 [("Content-Type", "application/json")]
        "\x7b\"jsonrpc\":\"2.0\",\"id\":42,\"error\":\x7b\"code\":-32602,\"message\":\"Invalid params\",\"data\":null\x7d\x7d").headers =
      [("Content-Type", "application/json")] :=
  ⟨rfl, into_reply_status_and_header
    (Response.new (some 42) (ResponseContent.Error Error.INVALID_PARAMS))
    (HttpResponse.mk 200 [("Content-Type", "application/json")]
      "\x7b\"jsonrpc\":\"2.0\",\"id\":42,\"error\":\x7b\"code\":-32602,\"message\":\"Invalid params\",\"data\":null\x7d\x7d")
    rfl⟩

/-- C8: every envelope that serializes successfully — any id, any content,
hence any construction path, none of which takes a version argument —
carries the literal string "2.0" in its `jsonrpc` field. -/
theorem jsonrpc_always_v2 (id : Option Nat) (content : ResponseContent) (j : Json)
    (h : (Response.new id content).serializeE = Except.ok j) :
    j.getKey? "jsonrpc" = some (Json.str "2.0") := by
  obtain ⟨key, x, hkey, rfl⟩ := serializeE_shape id content j h
  cases id <;> rfl

/-- Witness for C8 at a success envelope with id 1. -/
theorem jsonrpc_always_v2_witness :
    (Response.new (some 1) (ResponseContent.Success (Serializable.ofJson Json.null))).serializeE =
      Except.ok (Json.obj [("jsonrpc", Json.str "2.0"), ("id", Json.num 1),
        ("result", Json.null)]) ∧
    (Json.obj [("jsonrpc", Json.str "2.0"), ("id", Json.num 1),
      ("result", Json.null)]).getKey? "jsonrpc" = some (Json.str "2.0") :=
  ⟨rfl, jsonrpc_always_v2 (some 1)
    (ResponseContent.Success (Serializable.ofJson Json.null))
    (Json.obj [("jsonrpc", Json.str "2.0"), ("id", Json.num 1), ("result", Json.null)]) rfl⟩

/-- C9: every failure a build operation returns is the explicit
serialization error of the embedded payload or error data; the HTTP
assembly step with its fixed status 200 and fixed valid header never
fails, so the modelled `unwrap` panic is unreachable. -/
theorem failures_are_serialization_errors (r : Response) (f : BuildFailure)
    (h : r.into_reply = Except.error f) :
    ∃ msg, f = BuildFailure.serError msg ∧ r.serializeE = Except.error msg := by
  revert h
  unfold Response.into_reply
  cases hs : r.serializeE with
  | error msg =>
    intro h
    cases h
    exact ⟨msg, rfl, rfl⟩
  | ok j => intro h; cases h

/-- Witness for C9 at a payload whose serialization fails with message
"boom". -/
theorem failures_are_serialization_errors_witness :
    (Response.new none (ResponseContent.Success ⟨Except.error "boom"⟩)).into_reply =
      Except.error (BuildFailure.serError "boom") ∧
    ∃ msg, BuildFailure.serError "boom" = BuildFailure.serError msg ∧
      (Response.new none (ResponseContent.Success ⟨Except.error "boom"⟩)).serializeE =
        Except.error msg :=
  ⟨rfl, failures_are_serialization_errors _ _ rfl⟩

/-- C10: for every signed 64-bit code — the reserved protocol range
included — every message and every optional data value, `Error::custom`
returns exactly those fields: no validation, clamping, or rejection. -/
theorem custom_preserves_fields (c : Int) (m : String) (d : Option Serializable)
    (_h1 : -(2 ^ 63) ≤ c) (_h2 : c < 2 ^ 63) :
    (Error.custom c m d).code = c ∧ (Error.custom c m d).message = m ∧
      (Error.custom c m d).data = d :=
  ⟨rfl, rfl, rfl⟩

/-- Witness for C10 at the reserved-range code -32000. -/
theorem custom_preserves_fields_witness :
    (-(2 ^ 63) ≤ (-32000 : Int) ∧ (-32000 : Int) < 2 ^ 63) ∧
    ((Error.custom (-32000) "server error" none).code = -32000 ∧
      (Error.custom (-32000) "server error" none).message = "server error" ∧
      (Error.custom (-32000) "server error" none).data = none) :=
  ⟨⟨by decide, by decide⟩,
    custom_preserves_fields (-32000) "server error" none (by decide) (by decide)⟩

end WarpJsonRpc
